import Mathlib

/-!
Verification of the watermarking tool (src/first/main.py, src/second/watermark_app.py).

The definitions below are shallow embeddings of the Python source.  Python
machine arithmetic is modelled with Nat/Int.  Python float expressions that
are immediately truncated with int() are modelled by exact integer division
where a recorded float analysis shows truncation exact on the program's slider
domain (the opacity alphas, 0..100), and by an exact embedding of IEEE-754
binary64 rounding where float error is observable (the image-watermark
scaling: see roundDouble / wmDim).
-/

/-! ### Color parsing (Watermarker.apply_watermark_to_pil, lines 415-419)

The source is
  col = tuple(int(color.lstrip('#')[i:i+2],16) for i in (0,2,4)) + (int(255*opacity/100),)
with `except Exception: col = (255,255,255,int(255*opacity/100))`.

`pyIntHex` models Python's `int(s, 16)` on ASCII strings: surrounding
whitespace is stripped, an optional sign and an optional "0x"/"0X" prefix are
accepted, and single underscores may separate hex digits.  A failing
conversion is `none` (the Python call raises ValueError, caught by the
`except`). -/

def isPySpace (c : Char) : Bool :=
  c == ' ' || c == '\t' || c == '\n' || c == '\r' || c == '\x0b' || c == '\x0c'

def isHexDigitCh (c : Char) : Bool :=
  ('0' ≤ c && c ≤ '9') || ('a' ≤ c && c ≤ 'f') || ('A' ≤ c && c ≤ 'F')

def hexVal (c : Char) : Nat :=
  if '0' ≤ c ∧ c ≤ '9' then c.toNat - 48
  else if 'a' ≤ c then c.toNat - 87
  else c.toNat - 55

/-- Digits after the first one: `('_'? digit)*`, accumulating base-16 value. -/
def hexTail (acc : Nat) : List Char → Option Nat
  | [] => some acc
  | c :: rest =>
    if c = '_' then
      match rest with
      | c2 :: rest2 =>
        if isHexDigitCh c2 then hexTail (16 * acc + hexVal c2) rest2 else none
      | [] => none
    else if isHexDigitCh c then hexTail (16 * acc + hexVal c) rest else none

/-- A nonempty underscore-separated hex digit string, as Python accepts after
the optional sign/prefix. -/
def hexDigitsVal : List Char → Option Nat
  | [] => none
  | c :: rest => if isHexDigitCh c then hexTail (hexVal c) rest else none

/-- The part after the optional sign: an optional "0x"/"0X" prefix (with an
optional single underscore directly after it) followed by hex digits. -/
def hexBody (l : List Char) : Option Nat :=
  match l with
  | c0 :: c1 :: rest =>
    if c0 = '0' ∧ (c1 = 'x' ∨ c1 = 'X') then
      match rest with
      | r :: rest2 => if r = '_' then hexDigitsVal rest2 else hexDigitsVal (r :: rest2)
      | [] => hexDigitsVal []
    else hexDigitsVal (c0 :: c1 :: rest)
  | _ => hexDigitsVal l

def pyIntHexCore (l : List Char) : Option Int :=
  match l with
  | [] => none
  | c :: rest =>
    if c = '+' then (hexBody rest).map (fun n => (n : Int))
    else if c = '-' then (hexBody rest).map (fun n => -(n : Int))
    else (hexBody (c :: rest)).map (fun n => (n : Int))

def pyStrip (l : List Char) : List Char :=
  ((l.dropWhile isPySpace).reverse.dropWhile isPySpace).reverse

/-- Python `int(s, 16)`; `none` models a raised ValueError. -/
def pyIntHex (l : List Char) : Option Int :=
  pyIntHexCore (pyStrip l)

/-- Python slice `s[i:i+2]` (clamping, never failing). -/
def pySlice (l : List Char) (i : Nat) : List Char :=
  (l.drop i).take 2

/-- The RGB part of the color parse: `color.lstrip('#')` strips every leading
'#', then the three byte slices are converted with `int(_, 16)`; if any
conversion raises, the `except` branch substitutes white. -/
def parse_rgb (color : String) : Int × Int × Int :=
  let s := color.data.dropWhile (fun c => c = '#')
  match pyIntHex (pySlice s 0), pyIntHex (pySlice s 2), pyIntHex (pySlice s 4) with
  | some r, some g, some b => (r, g, b)
  | _, _, _ => (255, 255, 255)

/-- The value a two-hex-digit byte denotes. -/
def hexByte (a b : Char) : Int :=
  ((16 * hexVal a + hexVal b : Nat) : Int)

/-! ### Basic facts about the hex parser -/

theorem hex_ne (c d : Char) (h : isHexDigitCh c = true)
    (hd : isHexDigitCh d = false) : c ≠ d := by
  intro he
  rw [he, hd] at h
  exact Bool.noConfusion h

theorem hex_not_space (c : Char) (h : isHexDigitCh c = true) :
    isPySpace c = false := by
  have h1 : c ≠ ' ' := hex_ne c ' ' h (by decide)
  have h2 : c ≠ '\t' := hex_ne c '\t' h (by decide)
  have h3 : c ≠ '\n' := hex_ne c '\n' h (by decide)
  have h4 : c ≠ '\r' := hex_ne c '\r' h (by decide)
  have h5 : c ≠ '\x0b' := hex_ne c '\x0b' h (by decide)
  have h6 : c ≠ '\x0c' := hex_ne c '\x0c' h (by decide)
  simp [isPySpace, h1, h2, h3, h4, h5, h6]

theorem pyIntHex_pair (a b : Char) (ha : isHexDigitCh a = true)
    (hb : isHexDigitCh b = true) :
    pyIntHex [a, b] = some (hexByte a b) := by
  have hsa := hex_not_space a ha
  have hsb := hex_not_space b hb
  have hplus : a ≠ '+' := hex_ne a '+' ha (by decide)
  have hminus : a ≠ '-' := hex_ne a '-' ha (by decide)
  have hx : b ≠ 'x' := hex_ne b 'x' hb (by decide)
  have hX : b ≠ 'X' := hex_ne b 'X' hb (by decide)
  have hub : b ≠ '_' := hex_ne b '_' hb (by decide)
  have hstrip : pyStrip [a, b] = [a, b] := by
    simp [pyStrip, List.dropWhile_cons, hsa, hsb]
  rw [pyIntHex, hstrip]
  rw [pyIntHexCore]
  rw [if_neg hplus, if_neg hminus]
  rw [hexBody]
  rw [if_neg (by rintro ⟨-, hc | hc⟩ <;> [exact hx hc; exact hX hc])]
  rw [hexDigitsVal, if_pos ha]
  rw [hexTail, if_neg hub, if_pos hb]
  rfl

theorem pySlice_zero (a b : Char) (l : List Char) : pySlice (a :: b :: l) 0 = [a, b] := rfl

theorem pySlice_two (a b c d : Char) (l : List Char) :
    pySlice (a :: b :: c :: d :: l) 2 = [c, d] := rfl

theorem pySlice_four (a b c d e f : Char) (l : List Char) :
    pySlice (a :: b :: c :: d :: e :: f :: l) 4 = [e, f] := rfl

theorem parse_rgb_sixhex (c1 c2 c3 c4 c5 c6 : Char)
    (h1 : isHexDigitCh c1 = true) (h2 : isHexDigitCh c2 = true)
    (h3 : isHexDigitCh c3 = true) (h4 : isHexDigitCh c4 = true)
    (h5 : isHexDigitCh c5 = true) (h6 : isHexDigitCh c6 = true) :
    parse_rgb (String.mk [c1, c2, c3, c4, c5, c6]) =
      (hexByte c1 c2, hexByte c3 c4, hexByte c5 c6) ∧
    parse_rgb (String.mk ['#', c1, c2, c3, c4, c5, c6]) =
      (hexByte c1 c2, hexByte c3 c4, hexByte c5 c6) := by
  have hne : c1 ≠ '#' := hex_ne c1 '#' h1 (by decide)
  constructor
  · rw [parse_rgb]
    have hdrop : (String.mk [c1, c2, c3, c4, c5, c6]).data.dropWhile (fun c => c = '#') =
        [c1, c2, c3, c4, c5, c6] := by
      simp [List.dropWhile_cons, hne]
    rw [hdrop, pySlice_zero, pySlice_two, pySlice_four,
      pyIntHex_pair c1 c2 h1 h2, pyIntHex_pair c3 c4 h3 h4, pyIntHex_pair c5 c6 h5 h6]
  · rw [parse_rgb]
    have hdrop : (String.mk ['#', c1, c2, c3, c4, c5, c6]).data.dropWhile (fun c => c = '#') =
        [c1, c2, c3, c4, c5, c6] := by
      simp [List.dropWhile_cons, hne]
    rw [hdrop, pySlice_zero, pySlice_two, pySlice_four,
      pyIntHex_pair c1 c2 h1 h2, pyIntHex_pair c3 c4 h3 h4, pyIntHex_pair c5 c6 h5 h6]

/-- Claim C2 (amended): a well-formed 6-hex-digit color, with or without one
leading '#', parses to exactly the encoded RGB triple; parsing is total (the
fallback is taken instead of failing); and the white fallback (255,255,255) is
returned whenever one of the three byte slices fails to convert as a base-16
integer.  (The original claim said every malformed input yields white; that is
refuted by `c2_parse_color_counterexample`.) -/
theorem c2_parse_color_amended :
    (∀ c1 c2 c3 c4 c5 c6 : Char,
      isHexDigitCh c1 = true → isHexDigitCh c2 = true →
      isHexDigitCh c3 = true → isHexDigitCh c4 = true →
      isHexDigitCh c5 = true → isHexDigitCh c6 = true →
      parse_rgb (String.mk [c1, c2, c3, c4, c5, c6]) =
        (hexByte c1 c2, hexByte c3 c4, hexByte c5 c6) ∧
      parse_rgb (String.mk ['#', c1, c2, c3, c4, c5, c6]) =
        (hexByte c1 c2, hexByte c3 c4, hexByte c5 c6)) ∧
    (∀ s : String,
      (pyIntHex (pySlice (s.data.dropWhile (fun c => c = '#')) 0) = none ∨
       pyIntHex (pySlice (s.data.dropWhile (fun c => c = '#')) 2) = none ∨
       pyIntHex (pySlice (s.data.dropWhile (fun c => c = '#')) 4) = none) →
      parse_rgb s = (255, 255, 255)) := by
  constructor
  · intro c1 c2 c3 c4 c5 c6 h1 h2 h3 h4 h5 h6
    exact parse_rgb_sixhex c1 c2 c3 c4 c5 c6 h1 h2 h3 h4 h5 h6
  · intro s h
    simp only [parse_rgb]
    rcases h0 : pyIntHex (pySlice (s.data.dropWhile (fun c => c = '#')) 0) with - | r <;>
      rcases h2 : pyIntHex (pySlice (s.data.dropWhile (fun c => c = '#')) 2) with - | g <;>
      rcases h4 : pyIntHex (pySlice (s.data.dropWhile (fun c => c = '#')) 4) with - | b <;>
      simp_all

/-- Claim C2 counterexample: "ABCDEF1" has the wrong length (7 characters), so
per the claim it should parse to white (255,255,255); the code parses the
slices "AB","CD","EF" and returns (171,205,239). -/
theorem c2_parse_color_counterexample :
    parse_rgb "ABCDEF1" = (171, 205, 239) ∧
    parse_rgb "ABCDEF1" ≠ (255, 255, 255) := by
  constructor
  · rfl
  · intro h
    exact absurd h (by decide)

theorem c2_parse_color_witness :
    parse_rgb (String.mk ['#', '1', '0', 'F', 'F', '0', '0']) =
      (hexByte '1' '0', hexByte 'F' 'F', hexByte '0' '0') :=
  (c2_parse_color_amended.1 '1' '0' 'F' 'F' '0' '0'
    (by decide) (by decide) (by decide) (by decide) (by decide) (by decide)).2

/-! ### Alpha scaling (watermark_app.py lines 409-420, 434-438)

`textAlpha` models `int(255*opacity/100)`: `255*opacity` is an exact integer,
and for 0 ≤ opacity ≤ 100 the float division by 100 is within 2^-45 of the
exact rational, which is at least 1/100 away from any integer it does not
equal, so truncation equals exact floor division.

`shadowAlpha` models `int(opacity*0.6)`: the double nearest 0.6 is
0.6 - 0.2/2^53, so the computed product is 3*o/5 - o/(5*2^53) rounded to the
nearest double; for 0 ≤ o ≤ 100 that rounding lands on 3*o/5 exactly whenever
3*o/5 is an integer (deficit below half an ulp) and otherwise stays at least
1/5 away from any integer, so truncation equals floor(3*o/5). -/

def textAlpha (opacity : Nat) : Nat := 255 * opacity / 100

def shadowAlpha (opacity : Nat) : Nat := opacity * 3 / 5

/-- `int(self.img_opacity_slider.value()*255/100)` (line 435). -/
def imgAlphaByte (q : Nat) : Nat := q * 255 / 100

/-- The per-value lookup `lambda p: p*alpha/255` (line 437); PIL converts the
float table entries back to bytes by C truncation. -/
def adjustPixelAlpha (q p : Nat) : Nat := p * imgAlphaByte q / 255

/-- Lines 435-438: the alpha band is remapped only when `alpha < 255`. -/
def adjustedAlphaChannel (q : Nat) (alphas : List Nat) : List Nat :=
  if imgAlphaByte q < 255 then alphas.map (adjustPixelAlpha q) else alphas

/-! ### Layout engine (watermark_app.py lines 392-407) -/

/-- The nine-branch position chain of apply_watermark_to_pil: x,y start at 0,
each known key overwrites them, and the offset is added verbatim at the end.
Python's `//` is floor division, hence `Int.fdiv`. -/
def resolvePos (w h tw th : Int) (posKey : String) (ox oy : Int) : Int × Int :=
  let m : Int := 10
  let xy : Int × Int :=
    if posKey = "top-left" then (m, m)
    else if posKey = "top" then ((w - tw).fdiv 2, m)
    else if posKey = "top-right" then (w - tw - m, m)
    else if posKey = "left" then (m, (h - th).fdiv 2)
    else if posKey = "center" then ((w - tw).fdiv 2, (h - th).fdiv 2)
    else if posKey = "right" then (w - tw - m, (h - th).fdiv 2)
    else if posKey = "bottom-left" then (m, h - th - m)
    else if posKey = "bottom" then ((w - tw).fdiv 2, h - th - m)
    else if posKey = "bottom-right" then (w - tw - m, h - th - m)
    else (0, 0)
  (xy.1 + ox, xy.2 + oy)

/-- The three X stencil coordinates of the nine-grid (margin 10). -/
def gridX (w tw : Int) (i : Fin 3) : Int :=
  if i = 0 then 10 else if i = 1 then (w - tw).fdiv 2 else w - tw - 10

/-- The three Y stencil coordinates of the nine-grid (margin 10). -/
def gridY (h th : Int) (j : Fin 3) : Int :=
  if j = 0 then 10 else if j = 1 then (h - th).fdiv 2 else h - th - 10

/-- Which (column, row) of the nine-grid a known anchor key denotes. -/
def anchorCell (key : String) : Option (Fin 3 × Fin 3) :=
  if key = "top-left" then some (0, 0)
  else if key = "top" then some (1, 0)
  else if key = "top-right" then some (2, 0)
  else if key = "left" then some (0, 1)
  else if key = "center" then some (1, 1)
  else if key = "right" then some (2, 1)
  else if key = "bottom-left" then some (0, 2)
  else if key = "bottom" then some (1, 2)
  else if key = "bottom-right" then some (2, 2)
  else none

/-- add_watermark's pos_map.get(position, pos_map["right_bottom"]) from
src/first/main.py lines 51-57. -/
def add_watermark_pos (w h tw th : Int) (position : String) : Int × Int :=
  if position = "left_top" then (10, 10)
  else if position = "center" then ((w - tw).fdiv 2, (h - th).fdiv 2)
  else (w - tw - 10, h - th - 10)

/-! ### Text drawing (watermark_app.py lines 409-420) -/

/-- One PIL `draw.text` call: position, text, RGB fill and alpha byte. -/
structure DrawOp where
  pos : Int × Int
  txt : String
  rgb : Int × Int × Int
  alpha : Nat
  deriving DecidableEq

/-- The sequence of draw.text calls made for the text watermark, in program
order: the shadow glyphs (black, `int(opacity*0.6)`) when the shadow box is
checked, then the primary glyphs (parsed color, `int(255*opacity/100)`). -/
def textDrawOps (text : String) (shadow : Bool) (x y : Int) (opacity : Nat)
    (color : String) : List DrawOp :=
  (if shadow then [⟨(x + 2, y + 2), text, (0, 0, 0), shadowAlpha opacity⟩] else [])
    ++ [⟨(x, y), text, parse_rgb color, textAlpha opacity⟩]

/-! ### Image watermark target size (watermark_app.py lines 424-431)

`int(wm.width * scale)` with `scale = max(1, self.img_scale_slider.value())/100.0`
is genuinely double-precision: e.g. 100*(29/100.0) = 28.999999999999996, so
int() gives 28 where exact rational arithmetic gives 29.  Every value in this
pipeline is a dyadic rational, so IEEE-754 binary64 arithmetic embeds exactly:
`roundDouble n d` rounds n/d to the nearest double (ties to even) and returns
it as num/2^exp.  The model covers nonnegative finite doubles in the normal
range, which contains the whole program domain (slider 1..500, image sizes
below 2^32); it was checked against CPython on every (src, v) with
src, v ≤ 500 and spot-checked well beyond. -/

def natLog2F : Nat → Nat → Nat
  | 0, _ => 0
  | f + 1, n => if 2 ≤ n then natLog2F f (n / 2) + 1 else 0

/-- Floor of log2 (fuel-bounded structural recursion; exact below 2^4096). -/
def natLog2 (n : Nat) : Nat := natLog2F 4096 n

/-- Round num/den to the nearest integer, ties to even. -/
def roundHalfEven (num den : Nat) : Nat :=
  let q := num / den
  let r := num % den
  if 2 * r < den then q
  else if den < 2 * r then q + 1
  else if q % 2 = 0 then q else q + 1

/-- A nonnegative dyadic rational num / 2^exp. -/
structure Dyadic where
  num : Nat
  exp : Nat
  deriving DecidableEq

/-- The IEEE-754 binary64 value nearest n/d (ties to even): the quotient is
scaled so that the leading binary digit sits at position 52 of the 53-bit
significand, the significand is rounded half-to-even, and the value is
returned as an exact dyadic rational (num / 2^exp). -/
def roundDouble (n d : Nat) : Dyadic :=
  if n = 0 ∨ d = 0 then ⟨0, 0⟩
  else
    let e2 := natLog2 (n * 2 ^ 400 / d)
    if e2 ≤ 452 then ⟨roundHalfEven (n * 2 ^ (452 - e2)) d, 452 - e2⟩
    else ⟨roundHalfEven n (d * 2 ^ (e2 - 452)) * 2 ^ (e2 - 452), 0⟩

/-- `max(1, self.img_scale_slider.value())/100.0` (line 426): Python's true
division of two ints is the correctly rounded double quotient. -/
def pyScaleDouble (v : Nat) : Dyadic := roundDouble (max 1 v) 100

/-- `int(src * s)` for an int src and a double s: src converts to the nearest
double, the product of the two doubles is rounded to the nearest double, and
int() truncates toward zero (floor here, as everything is nonnegative). -/
def pyMulTrunc (src : Nat) (s : Dyadic) : Nat :=
  let srcD := roundDouble src 1
  let p := roundDouble (srcD.num * s.num) (2 ^ (srcD.exp + s.exp))
  p.num / 2 ^ p.exp

/-- Lines 427-428: `new_w = int(wm.width * scale)` (same for the height). -/
def wmDim (src v : Nat) : Nat := pyMulTrunc src (pyScaleDouble v)

/-- Lines 429-430: if either computed dimension is ≤ 0, both are replaced by
`(int(w*0.25), int(h*0.25))` (0.25 is an exact double, so these are exact
floor divisions by 4). -/
def wmTargetDims (srcW srcH v w h : Nat) : Nat × Nat :=
  if wmDim srcW v = 0 ∨ wmDim srcH v = 0 then (w / 4, h / 4)
  else (wmDim srcW v, wmDim srcH v)

/-- What the spec's wording "(round(src_w*scale), round(src_h*scale))" denotes
for one dimension (round-half-up on the exact rational). -/
def specRoundDim (src v : Nat) : Int := round (((src * max 1 v : Nat) : ℚ) / 100)

/-! ### Claims C3-C7 -/

/-- Claim C3: the nine-grid layout maps each known anchor to the top-left
stencil corner obtained by crossing the three X coordinates (10,
(w-tw) // 2, w-tw-10) with the three analogous Y coordinates, the offset is
added verbatim afterwards and never clamped; in particular a 200x100 canvas
with an 80x20 box anchored bottom-right at margin 10 places at (110, 70). -/
theorem c3_nine_grid :
    (∀ (w h tw th : Int) (key : String) (ox oy : Int) (c r : Fin 3),
      anchorCell key = some (c, r) →
      resolvePos w h tw th key ox oy = (gridX w tw c + ox, gridY h th r + oy)) ∧
    resolvePos 200 100 80 20 "bottom-right" 0 0 = (110, 70) := by
  constructor
  · intro w h tw th key ox oy c r hc
    unfold anchorCell at hc
    split_ifs at hc with h1 h2 h3 h4 h5 h6 h7 h8 h9 <;>
      first
      | exact Option.noConfusion hc
      | (injection hc with hpair
         rw [Prod.mk.injEq] at hpair
         obtain ⟨rfl, rfl⟩ := hpair
         subst_vars
         simp [resolvePos, gridX, gridY])
  · decide

theorem c3_nine_grid_witness :
    resolvePos 200 100 80 20 "top-left" 3 4 =
      (gridX 200 80 0 + 3, gridY 100 20 0 + 4) :=
  c3_nine_grid.1 200 100 80 20 "top-left" 3 4 0 0 rfl

/-- Claim C4 counterexample: the unknown anchor key "foo" resolves to (0, 0),
not to the bottom-right placement (110, 70) the claim requires on a 200x100
canvas with an 80x20 box. -/
theorem c4_unknown_anchor_counterexample :
    resolvePos 200 100 80 20 "foo" 0 0 = (0, 0) ∧
    resolvePos 200 100 80 20 "foo" 0 0 ≠ (200 - 80 - 10, 100 - 20 - 10) := by
  constructor
  · decide
  · decide

/-- Claim C4 (amended): in watermark_app.py an anchor key that is none of the
nine known keys leaves (x, y) at their initial value (0, 0), so the resolver
returns just the offset — not bottom-right; the bottom-right fallback for
unknown positions exists only in src/first/main.py's add_watermark. -/
theorem c4_unknown_anchor_amended :
    (∀ (w h tw th : Int) (key : String) (ox oy : Int),
      key ≠ "top-left" → key ≠ "top" → key ≠ "top-right" → key ≠ "left" →
      key ≠ "center" → key ≠ "right" → key ≠ "bottom-left" → key ≠ "bottom" →
      key ≠ "bottom-right" →
      resolvePos w h tw th key ox oy = (ox, oy)) ∧
    (∀ (w h tw th : Int) (position : String),
      position ≠ "left_top" → position ≠ "center" →
      add_watermark_pos w h tw th position = (w - tw - 10, h - th - 10)) := by
  constructor
  · intro w h tw th key ox oy h1 h2 h3 h4 h5 h6 h7 h8 h9
    simp [resolvePos, h1, h2, h3, h4, h5, h6, h7, h8, h9]
  · intro w h tw th position h1 h2
    simp [add_watermark_pos, h1, h2]

theorem c4_unknown_anchor_witness :
    resolvePos 200 100 80 20 "foo" 5 6 = (5, 6) ∧
    add_watermark_pos 200 100 80 20 "bottom" = (200 - 80 - 10, 100 - 20 - 10) :=
  ⟨c4_unknown_anchor_amended.1 200 100 80 20 "foo" 5 6 (by decide) (by decide)
      (by decide) (by decide) (by decide) (by decide) (by decide) (by decide) (by decide),
   c4_unknown_anchor_amended.2 200 100 80 20 "bottom" (by decide) (by decide)⟩

/-- Claim C5 counterexample: at opacity 100 the primary text alpha is 255, so
the claim requires a shadow alpha of round(0.6*255) = 153; the code computes
int(opacity*0.6) = 60 from the 0..100 percentage instead. -/
theorem c5_shadow_counterexample :
    shadowAlpha 100 = 60 ∧ textAlpha 100 = 255 ∧
    (shadowAlpha 100 : Int) ≠ round ((6 : ℚ) / 10 * (textAlpha 100 : Nat)) := by
  refine ⟨rfl, rfl, ?_⟩
  have h : round ((6 : ℚ) / 10 * (textAlpha 100 : Nat)) = 153 := by
    norm_num [textAlpha, round_eq]
  rw [h]
  decide

/-- Claim C5 (amended): with the shadow enabled the shadow glyphs are drawn at
(x+2, y+2) strictly before the primary glyphs at (x, y), in black; the primary
alpha maps the 0..100 percentage onto 0..255 as int(255*p/100); but the
shadow's alpha is int(0.6*p) computed from the percentage p itself — i.e.
floor(3p/5), at most 60 — not round(0.6) of the 255-scaled text alpha. -/
theorem c5_shadow_amended :
    ∀ (text : String) (x y : Int) (opacity : Nat) (color : String),
      text ≠ "" →
      textDrawOps text true x y opacity color =
        [⟨(x + 2, y + 2), text, (0, 0, 0), shadowAlpha opacity⟩,
         ⟨(x, y), text, parse_rgb color, textAlpha opacity⟩] ∧
      shadowAlpha opacity = opacity * 3 / 5 ∧
      textAlpha opacity = 255 * opacity / 100 := by
  intro text x y opacity color h
  exact ⟨rfl, rfl, rfl⟩

theorem c5_shadow_witness :
    textDrawOps "2024-01-01" true 110 70 70 "#FFFFFF" =
      [⟨(110 + 2, 70 + 2), "2024-01-01", (0, 0, 0), shadowAlpha 70⟩,
       ⟨(110, 70), "2024-01-01", parse_rgb "#FFFFFF", textAlpha 70⟩] :=
  (c5_shadow_amended "2024-01-01" 110 70 70 "#FFFFFF" (by decide)).1

set_option exponentiation.threshold 600 in
set_option maxRecDepth 4000 in
/-- Claim C6 counterexample: a 6x6 watermark at slider value 25 (scale 0.25,
an exact double, product exactly 1.5): the claim's round(1.5) is 2, the
code's int(1.5) is 1. -/
theorem c6_wm_dims_counterexample :
    wmDim 6 25 = 1 ∧ specRoundDim 6 25 = 2 ∧ (wmDim 6 25 : Int) ≠ specRoundDim 6 25 := by
  have h : specRoundDim 6 25 = 2 := by
    norm_num [specRoundDim, round_eq]
  have h1 : wmDim 6 25 = 1 := by decide
  refine ⟨h1, h, ?_⟩
  rw [h, h1]
  decide

/-- Claim C6 (amended): the resample target dimensions are the truncations
int(src_w*s), int(src_h*s) of the double-precision products — truncated
toward zero, not rounded to nearest as the claim states — and whenever either
truncated dimension is 0 both are replaced by (int(0.25*w), int(0.25*h)) =
(w/4, h/4); hence for any canvas at least 4 pixels in each direction the
resample never receives a zero dimension. -/
theorem c6_wm_dims_amended :
    ∀ (srcW srcH v w h : Nat),
      wmTargetDims srcW srcH v w h =
        (if wmDim srcW v = 0 ∨ wmDim srcH v = 0 then (w / 4, h / 4)
         else (wmDim srcW v, wmDim srcH v)) ∧
      (4 ≤ w → 4 ≤ h →
        0 < (wmTargetDims srcW srcH v w h).1 ∧ 0 < (wmTargetDims srcW srcH v w h).2) := by
  intro srcW srcH v w h
  refine ⟨rfl, ?_⟩
  intro hw hh
  unfold wmTargetDims
  split_ifs with hc
  · refine ⟨?_, ?_⟩ <;> simp <;> omega
  · push_neg at hc
    refine ⟨?_, ?_⟩ <;> simp <;> omega

theorem c6_wm_dims_witness :
    0 < (wmTargetDims 50 50 1 200 100).1 ∧ 0 < (wmTargetDims 50 50 1 200 100).2 :=
  (c6_wm_dims_amended 50 50 1 200 100).2 (by decide) (by decide)

/-- Claim C7: for image opacity q < 100 the alpha band is remapped pointwise
by p ↦ p * int(q*255/100) / 255 (multiplicative in the pixel's own alpha), and
the adjusted alpha never exceeds the pixel's original alpha. -/
theorem c7_img_opacity_multiplicative :
    ∀ (q : Nat) (alphas : List Nat), q < 100 →
      adjustedAlphaChannel q alphas = alphas.map (adjustPixelAlpha q) ∧
      ∀ p, adjustPixelAlpha q p ≤ p := by
  intro q alphas hq
  have hb : imgAlphaByte q < 255 := by
    unfold imgAlphaByte
    omega
  constructor
  · unfold adjustedAlphaChannel
    rw [if_pos hb]
  · intro p
    unfold adjustPixelAlpha
    calc p * imgAlphaByte q / 255 ≤ p * 255 / 255 :=
          Nat.div_le_div_right (Nat.mul_le_mul_left p (le_of_lt hb))
      _ = p := by omega

theorem c7_img_opacity_witness :
    adjustedAlphaChannel 80 [255, 10, 0] = [255, 10, 0].map (adjustPixelAlpha 80) ∧
    adjustPixelAlpha 80 200 ≤ 200 :=
  ⟨(c7_img_opacity_multiplicative 80 [255, 10, 0] (by decide)).1,
   (c7_img_opacity_multiplicative 80 [255, 10, 0] (by decide)).2 200⟩

/-! ### Path helpers (os.path.basename / dirname / splitext / join, POSIX) -/

/-- os.path.basename: the part after the last '/'. -/
def basenameList (l : List Char) : List Char :=
  (l.reverse.takeWhile (fun c => c ≠ '/')).reverse

def basename (s : String) : String := String.mk (basenameList s.data)

/-- os.path.dirname: everything up to the last '/', with trailing slashes
stripped unless the head is all slashes. -/
def dirnameList (l : List Char) : List Char :=
  let head := (l.reverse.dropWhile (fun c => c ≠ '/')).reverse
  if head = [] then []
  else if head.all (fun c => c = '/') then head
  else (head.reverse.dropWhile (fun c => c = '/')).reverse

def dirname (s : String) : String := String.mk (dirnameList s.data)

/-- os.path.splitext on a separator-free name: split at the last '.', except
that a name whose part before that dot is all dots keeps no extension. -/
def splitextList (l : List Char) : List Char × List Char :=
  let rev := l.reverse
  let pre := rev.takeWhile (fun c => c ≠ '.')
  match rev.dropWhile (fun c => c ≠ '.') with
  | [] => (l, [])
  | _ :: nameRev =>
    if nameRev.all (fun c => c = '.') then (l, [])
    else (nameRev.reverse, '.' :: pre.reverse)

def splitext (s : String) : String × String :=
  ((splitextList s.data).1.asString, (splitextList s.data).2.asString)

def strStartsWith (s pre : String) : Bool := List.isPrefixOf pre.data s.data

/-- os.path.join for the two-argument use in export_images. -/
def pyJoin (a b : String) : String :=
  if strStartsWith b "/" then b
  else if a = "" then b
  else if strStartsWith (String.mk a.data.reverse) "/" then a ++ b
  else a ++ "/" ++ b

/-! ### Export pipeline (Watermarker.export_images, lines 468-531) -/

/-- Lines 510-517: the output file name from the naming combo text and the
affix string, applied to the source basename split into (name, ext). -/
def newName (naming add name ext : String) : String :=
  if strStartsWith naming "保留" then name ++ ext
  else if strStartsWith naming "添加前缀" then add ++ name ++ ext
  else name ++ add ++ ext

/-- Line 520: out_path = os.path.join(self.output_folder, new_name). -/
def outPath (folder naming add p : String) : String :=
  pyJoin folder (newName naming add (splitext (basename p)).1 (splitext (basename p)).2)

/-- The observable outcome of one export_images call.  `completed` carries the
writes performed in loop order, the paths whose per-file try block raised (the
`except` prints), and the count shown by the final message box. -/
inductive ExportOutcome (α : Type) where
  | noImages
  | noFolder
  | unsafeTarget
  | completed (writes : List (String × α)) (failures : List String) (reported : Nat)
  deriving DecidableEq

def writesOf {α : Type} : ExportOutcome α → List (String × α)
  | .completed ws _ _ => ws
  | _ => []

def failuresOf {α : Type} : ExportOutcome α → List String
  | .completed _ fs _ => fs
  | _ => []

def reportedOf {α : Type} : ExportOutcome α → Option Nat
  | .completed _ _ n => some n
  | _ => none

/-- export_images: the empty-list and no-folder guards, the unsafe-target
check (dirname(p) == output_folder and not override, checked for every source
before any write), then the per-file loop.  `proc p` is the result of the
loop body's try block up to the save for source p: `some c` means the file
decoded, composited and saved content c; `none` means some step raised and the
`except` branch skipped the file.  The final message box reports
`len(image_paths)`. -/
def exportImages {α : Type} (paths : List String) (folderOpt : Option String)
    (override : Bool) (naming add : String) (proc : String → Option α) :
    ExportOutcome α :=
  if paths = [] then .noImages
  else
    match folderOpt with
    | none => .noFolder
    | some folder =>
      if paths.any (fun p => dirname p == folder && !override) then .unsafeTarget
      else
        .completed
          (paths.filterMap (fun p => (proc p).map (fun c => (outPath folder naming add p, c))))
          (paths.filter (fun p => (proc p).isNone))
          paths.length

/-- Sequential file writes: each write unconditionally replaces whatever the
target path held. -/
def applyWrites {α : Type} (ws : List (String × α)) (fs : String → Option α) :
    String → Option α :=
  ws.foldl (fun acc pc => fun q => if q = pc.1 then some pc.2 else acc q) fs

/-! ### Format-specific write (export_images lines 519-527) -/

def lowerChar (c : Char) : Char :=
  if 'A' ≤ c ∧ c ≤ 'Z' then Char.ofNat (c.toNat + 32) else c

def lowerExt (s : String) : String := String.mk (s.data.map lowerChar)

/-- `ext.lower() in ('.jpg','.jpeg')`. -/
def isJpegExt (ext : String) : Bool := lowerExt ext == ".jpg" || lowerExt ext == ".jpeg"

/-- Pillow's MULDIV255 rounding helper used by Image.paste with an L mask. -/
def muldiv255 (a b : Nat) : Nat :=
  (a * b + 128 + (a * b + 128) / 256) / 256

/-- One channel of `bg.paste(out, mask=out.split()[3])`: blend the white
background (dst) with the source channel under the alpha mask. -/
def blendChan (mask dst src : Nat) : Nat :=
  muldiv255 dst (255 - mask) + muldiv255 src mask

/-- Flatten one RGBA pixel onto opaque white using its own alpha as mask. -/
def flattenPixel (p : Nat × Nat × Nat × Nat) : Nat × Nat × Nat :=
  (blendChan p.2.2.2 255 p.1, blendChan p.2.2.2 255 p.2.1, blendChan p.2.2.2 255 p.2.2.1)

/-- What gets written: an RGB buffer at the configured JPEG quality, or the
RGBA buffer unchanged. -/
inductive Saved where
  | rgb (pixels : List (Nat × Nat × Nat)) (quality : Nat)
  | rgba (pixels : List (Nat × Nat × Nat × Nat))
  deriving DecidableEq

/-- An RGB file has no alpha channel at all; an RGBA file is transparent
wherever a pixel's alpha is below 255. -/
def hasTransparentPixel : Saved → Bool
  | .rgb _ _ => false
  | .rgba ps => ps.any (fun p => p.2.2.2 < 255)

/-- Lines 522-527: for .jpg/.jpeg (case-insensitive) paste the canvas onto a
white RGB background through its alpha band and save with `quality`;
otherwise save the RGBA buffer directly. -/
def saveOut (ext : String) (pixels : List (Nat × Nat × Nat × Nat)) (quality : Nat) : Saved :=
  if isJpegExt ext then .rgb (pixels.map flattenPixel) quality
  else .rgba pixels

/-! ### Claims C1, C8, C9, C10 -/

/-- Claim C1: with the override checkbox unset, if the chosen export folder
equals `os.path.dirname` of any source image, export_images stops at the
unsafe-target warning and the batch performs zero writes. -/
theorem c1_unsafe_target_aborts {α : Type} (paths : List String) (folder : String)
    (naming add : String) (proc : String → Option α)
    (hex : ∃ p ∈ paths, dirname p = folder) :
    exportImages paths (some folder) false naming add proc = .unsafeTarget ∧
    writesOf (exportImages paths (some folder) false naming add proc) = [] := by
  obtain ⟨p, hp, hd⟩ := hex
  have hne : paths ≠ [] := List.ne_nil_of_mem hp
  have hany : paths.any (fun q => dirname q == folder && !false) = true := by
    rw [List.any_eq_true]
    exact ⟨p, hp, by simp [hd]⟩
  have hres : exportImages paths (some folder) false naming add proc = .unsafeTarget := by
    simp [exportImages, hne, hany]
    exact ⟨p, hp, hd⟩
  exact ⟨hres, by rw [hres]; rfl⟩

theorem c1_unsafe_target_witness :
    exportImages ["/pics/a.png"] (some "/pics") false "保留原文件名" "wm_"
      (fun _ => some (0 : Nat)) = .unsafeTarget ∧
    writesOf (exportImages ["/pics/a.png"] (some "/pics") false "保留原文件名" "wm_"
      (fun _ => some (0 : Nat))) = [] :=
  c1_unsafe_target_aborts ["/pics/a.png"] "/pics" "保留原文件名" "wm_"
    (fun _ => some (0 : Nat)) ⟨"/pics/a.png", by simp, by decide⟩

/-- Claim C8: a source extension whose lower-casing is .jpg or .jpeg is
written as an RGB buffer flattened pixelwise onto opaque white through the
canvas alpha, at the configured quality, and the written result has no
transparent pixel; every other extension is written as the RGBA buffer
unchanged. -/
theorem c8_jpeg_flatten :
    ∀ (ext : String) (pixels : List (Nat × Nat × Nat × Nat)) (quality : Nat),
      (isJpegExt ext = true →
        saveOut ext pixels quality = .rgb (pixels.map flattenPixel) quality ∧
        hasTransparentPixel (saveOut ext pixels quality) = false) ∧
      (isJpegExt ext = false → saveOut ext pixels quality = .rgba pixels) := by
  intro ext pixels quality
  constructor
  · intro h
    constructor
    · unfold saveOut
      rw [if_pos h]
    · unfold saveOut
      rw [if_pos h]
      rfl
  · intro h
    unfold saveOut
    rw [if_neg (by simp [h])]

theorem c8_jpeg_flatten_witness :
    hasTransparentPixel (saveOut ".JPG" [(10, 20, 30, 40)] 90) = false ∧
    saveOut ".png" [(10, 20, 30, 40)] 90 = .rgba [(10, 20, 30, 40)] :=
  ⟨((c8_jpeg_flatten ".JPG" [(10, 20, 30, 40)] 90).1 (by decide)).2,
   (c8_jpeg_flatten ".png" [(10, 20, 30, 40)] 90).2 (by decide)⟩

theorem writes_length_eq {α β : Type} (proc : String → Option α) (g : String → α → β) :
    ∀ l : List String,
      (l.filterMap fun p => (proc p).map (g p)).length =
      (l.filter fun p => (proc p).isSome).length := by
  intro l
  induction l with
  | nil => rfl
  | cons a t ih =>
    cases h : proc a <;> simp [List.filterMap_cons, List.filter_cons, h, ih]

/-- Claim C9 (amended): a failure of the per-file try block is non-fatal — the
file lands in the recorded failures, every other file is still processed and
written, and the call never raises — but the completion message reports
`len(image_paths)`, the total batch size, rather than the count of images
actually written (see `c9_reported_count_counterexample`), and the per-file
failures are only printed as they occur, not returned with the report. -/
theorem c9_per_file_errors_amended {α : Type}
    (paths : List String) (folder : String) (override : Bool) (naming add : String)
    (proc : String → Option α) (hne : paths ≠ [])
    (hsafe : (paths.any fun p => dirname p == folder && !override) = false) :
    exportImages paths (some folder) override naming add proc =
      .completed
        (paths.filterMap fun p => (proc p).map fun c => (outPath folder naming add p, c))
        (paths.filter fun p => (proc p).isNone)
        paths.length ∧
    (writesOf (exportImages paths (some folder) override naming add proc)).length =
      (paths.filter fun p => (proc p).isSome).length ∧
    reportedOf (exportImages paths (some folder) override naming add proc) =
      some paths.length ∧
    failuresOf (exportImages paths (some folder) override naming add proc) =
      paths.filter (fun p => (proc p).isNone) := by
  have hstep : exportImages paths (some folder) override naming add proc =
      .completed
        (paths.filterMap fun p => (proc p).map fun c => (outPath folder naming add p, c))
        (paths.filter fun p => (proc p).isNone)
        paths.length := by
    unfold exportImages
    rw [if_neg hne]
    show (if (paths.any fun p => dirname p == folder && !override) = true then
        ExportOutcome.unsafeTarget
      else
        ExportOutcome.completed
          (paths.filterMap fun p => (proc p).map fun c => (outPath folder naming add p, c))
          (paths.filter fun p => (proc p).isNone) paths.length) =
      ExportOutcome.completed
        (paths.filterMap fun p => (proc p).map fun c => (outPath folder naming add p, c))
        (paths.filter fun p => (proc p).isNone) paths.length
    rw [if_neg (by simp [hsafe])]
  refine ⟨hstep, ?_, ?_, ?_⟩
  · rw [hstep]
    exact writes_length_eq proc (fun p c => (outPath folder naming add p, c)) paths
  · rw [hstep]
    rfl
  · rw [hstep]
    rfl

theorem c9_per_file_errors_witness :
    exportImages ["/a/x.png"] (some "/out") false "保留原文件名" "wm_"
      (fun _ => some (5 : Nat)) =
      .completed
        ((["/a/x.png"] : List String).filterMap fun p =>
          ((fun _ => some (5 : Nat)) p).map fun c => (outPath "/out" "保留原文件名" "wm_" p, c))
        ((["/a/x.png"] : List String).filter fun p => ((fun _ => some (5 : Nat)) p).isNone)
        (["/a/x.png"] : List String).length :=
  (c9_per_file_errors_amended ["/a/x.png"] "/out" false "保留原文件名" "wm_"
    (fun _ => some (5 : Nat)) (by decide) (by decide)).1

/-- Claim C9 counterexample: a batch of two images in which the first one's
try block raises — one file is written, yet the completion report says 2 (the
whole batch size), and the claim's "reports the count of images actually
written" fails. -/
theorem c9_reported_count_counterexample :
    reportedOf (exportImages ["/a/x.png", "/a/y.png"] (some "/out") false
      "保留原文件名" "wm_" (fun p => if p = "/a/y.png" then some (7 : Nat) else none)) =
      some 2 ∧
    (writesOf (exportImages ["/a/x.png", "/a/y.png"] (some "/out") false
      "保留原文件名" "wm_"
      (fun p => if p = "/a/y.png" then some (7 : Nat) else none))).length = 1 ∧
    (2 : Nat) ≠ 1 := by
  refine ⟨rfl, rfl, by decide⟩

/-- Claim C10: the output path is built from the export folder, the naming
rule and the source basename only, and writes replace whatever is at the
target path without an existence check; so two batch members with equal
basenames share one output path and the later write overwrites the earlier
one's output. -/
theorem c10_basename_collision {α : Type}
    (folder naming add p1 p2 : String) (proc : String → Option α) (c1 c2 : α)
    (fs : String → Option α)
    (hb : basename p1 = basename p2)
    (h1 : proc p1 = some c1) (h2 : proc p2 = some c2) :
    outPath folder naming add p1 = outPath folder naming add p2 ∧
    applyWrites (writesOf (exportImages [p1, p2] (some folder) true naming add proc)) fs
      (outPath folder naming add p1) = some c2 := by
  have hpath : outPath folder naming add p1 = outPath folder naming add p2 := by
    unfold outPath
    rw [hb]
  refine ⟨hpath, ?_⟩
  have hexp : exportImages [p1, p2] (some folder) true naming add proc =
      .completed [(outPath folder naming add p1, c1), (outPath folder naming add p2, c2)]
        [] 2 := by
    simp [exportImages, h1, h2]
  rw [hexp]
  simp [applyWrites, writesOf, hpath]

theorem c10_basename_collision_witness :
    outPath "/out" "保留原文件名" "wm_" "/a/x.png" =
      outPath "/out" "保留原文件名" "wm_" "/b/x.png" ∧
    applyWrites
      (writesOf (exportImages ["/a/x.png", "/b/x.png"] (some "/out") true "保留原文件名" "wm_"
        (fun p => if p = "/a/x.png" then some (1 : Nat) else some 2)))
      (fun _ => none)
      (outPath "/out" "保留原文件名" "wm_" "/a/x.png") = some 2 :=
  c10_basename_collision "/out" "保留原文件名" "wm_" "/a/x.png" "/b/x.png"
    (fun p => if p = "/a/x.png" then some (1 : Nat) else some 2) 1 2 (fun _ => none)
    (by decide) (by decide) (by decide)
